import Mathlib

/-!
# dlib `webp_loader`: a shallow embedding of `dlib/image_loader/webp_loader.cpp`

The loader is a thin adapter over libwebp. libwebp itself is an external
library: it is taken as a parameter (`LibWebP`), a record of the functions the
loader calls. Every call the loader makes into the library, and the line it
writes to `std::cerr`, is recorded in a trace, so that statements such as
"no decoder is called" or "the iterator is released once" can be stated.

Machine integers: `int` is 32 bits two's complement (`wrap_int`), `size_t` is
64 bits unsigned (`to_size_t`). Pointers are byte addresses.
-/

namespace dlib

/-! ## Data model -/

/-- The contents of a `std::vector<unsigned char>`. -/
abbrev Bytes := List (Fin 256)

/-- Status codes of libwebp (`VP8StatusCode` of `webp/decode.h`). -/
inductive VP8StatusCode where
  | VP8_STATUS_OK
  | VP8_STATUS_OUT_OF_MEMORY
  | VP8_STATUS_INVALID_PARAM
  | VP8_STATUS_BITSTREAM_ERROR
  | VP8_STATUS_UNSUPPORTED_FEATURE
  | VP8_STATUS_SUSPENDED
  | VP8_STATUS_USER_ABORT
  | VP8_STATUS_NOT_ENOUGH_DATA
  deriving DecidableEq, Repr

/-- The fields of `WebPBitstreamFeatures` that `WebPGetFeatures` fills in.
Width and height are dimensions in pixels and are held as naturals; the
flags are C `int`s, the loader compares `has_animation` with `1`. -/
structure WebPBitstreamFeatures where
  width : Nat
  height : Nat
  has_alpha : Int
  has_animation : Int
  deriving DecidableEq, Repr

/-- Selector of `WebPDemuxGetI` (`WebPFormatFeature` of `webp/demux.h`). -/
inductive WebPFormatFeature where
  | WEBP_FF_FORMAT_FLAGS
  | WEBP_FF_CANVAS_WIDTH
  | WEBP_FF_CANVAS_HEIGHT
  | WEBP_FF_LOOP_COUNT
  | WEBP_FF_BACKGROUND_COLOR
  | WEBP_FF_FRAME_COUNT
  deriving DecidableEq, Repr

/-- A non-null `WebPDemuxer*`: the address of the demultiplexer object. The
null pointer is `none` in `Option Demuxer`. -/
abbrev Demuxer := Nat

/-- The fields of `WebPIterator` the loader reads after `WebPDemuxGetFrame`:
the canvas offset of the frame and its compressed fragment. -/
structure WebPIterator where
  x_offset : Int
  y_offset : Int
  fragment : Bytes
  deriving DecidableEq, Repr

/-- The five output layouts of the `WebPDecode*Into` family. -/
inductive Layout where
  | ARGB
  | RGBA
  | BGRA
  | RGB
  | BGR
  deriving DecidableEq, Repr

/-- The exception type thrown by the loader, carrying its message. -/
structure image_load_error where
  info : String
  deriving DecidableEq, Repr

/-- One observable action of the loader: a call into libwebp with its
arguments, or a line written to `std::cerr`. -/
inductive Call where
  | GetFeatures (data : Bytes)
  | Demux (data : Bytes)
  | DemuxGetI (dmux : Demuxer) (feature : WebPFormatFeature)
  | DemuxGetFrame (dmux : Option Demuxer) (frame_number : Int)
  | DecodeInto (layout : Layout) (data : Bytes) (out : Int) (out_size : Nat) (out_stride : Int)
  | DemuxReleaseIterator (iter : WebPIterator)
  | DemuxDelete (dmux : Demuxer)
  | cerr (text : String)
  deriving DecidableEq, Repr

/-- The libwebp functions used by the loader, as answers to calls.
`WebPGetFeatures` returns the status and the features it wrote;
`WebPDemux` returns the handle or null; `WebPDemuxGetFrame` returns its
`int` result as a Boolean together with the iterator it filled in; the
decoders return whether the result pointer is non-null. -/
structure LibWebP where
  WebPGetFeatures : Bytes → VP8StatusCode × WebPBitstreamFeatures
  WebPDemux : Bytes → Option Demuxer
  WebPDemuxGetI : Demuxer → WebPFormatFeature → Nat
  WebPDemuxGetFrame : Option Demuxer → Int → Bool × WebPIterator
  WebPDecodeARGBInto : Bytes → Int → Nat → Int → Bool
  WebPDecodeRGBAInto : Bytes → Int → Nat → Int → Bool
  WebPDecodeBGRAInto : Bytes → Int → Nat → Int → Bool
  WebPDecodeRGBInto : Bytes → Int → Nat → Int → Bool
  WebPDecodeBGRInto : Bytes → Int → Nat → Int → Bool

/-- The decoder of the library for a layout. -/
def LibWebP.decoder (lib : LibWebP) : Layout → Bytes → Int → Nat → Int → Bool
  | .ARGB => lib.WebPDecodeARGBInto
  | .RGBA => lib.WebPDecodeRGBAInto
  | .BGRA => lib.WebPDecodeBGRAInto
  | .RGB => lib.WebPDecodeRGBInto
  | .BGR => lib.WebPDecodeBGRInto

/-! ## Machine arithmetic -/

/-- The value of a C `int` expression: 32 bits, two's complement. -/
def wrap_int (n : Int) : Int := (n + 2 ^ 31) % 2 ^ 32 - 2 ^ 31

/-- Conversion of an integer value to `size_t` (64 bits, unsigned). -/
def to_size_t (n : Int) : Nat := (n % 2 ^ 64).toNat

/-! ## Executions: a trace of calls and a result or a thrown exception -/

/-- The outcome of running loader code: the calls made, in order, and either
the returned value or the exception that was thrown. -/
structure Exec (α : Type) where
  trace : List Call
  result : Except image_load_error α

/-- Sequencing: a thrown exception skips the rest, the trace made so far
is kept. -/
def Exec.bind {α β : Type} (m : Exec α) (f : α → Exec β) : Exec β :=
  match m.result with
  | .error e => ⟨m.trace, .error e⟩
  | .ok a => ⟨m.trace ++ (f a).trace, (f a).result⟩

instance : Monad Exec where
  pure a := ⟨[], .ok a⟩
  bind := Exec.bind

/-- The C++ `throw image_load_error(msg)`. -/
def throw_error {α : Type} (msg : String) : Exec α := ⟨[], .error ⟨msg⟩⟩

/-- A call into the library (or a write to `std::cerr`) with its answer. -/
def call {α : Type} (c : Call) (answer : α) : Exec α := ⟨[c], .ok answer⟩

/-- Whether a call is one of the `WebPDecode*Into` functions. -/
def Call.isDecode : Call → Bool
  | .DecodeInto _ _ _ _ _ => true
  | _ => false

/-- Whether a call opens a demultiplexer (`WebPDemux`). -/
def Call.isDemux : Call → Bool
  | .Demux _ => true
  | _ => false

/-- Whether a call releases a frame iterator. -/
def Call.isRelease : Call → Bool
  | .DemuxReleaseIterator _ => true
  | _ => false

/-- Whether a call queries a demultiplexer feature. -/
def Call.isGetI : Call → Bool
  | .DemuxGetI _ _ => true
  | _ => false

/-- Whether a call closes a demultiplexer (`WebPDemuxDelete`). -/
def Call.isDelete : Call → Bool
  | .DemuxDelete _ => true
  | _ => false

/-! ## The loader -/

/-- Modelled from the spec: the data members of `webp_loader`, declared in
`webp_loader.h`, which is not among the sources. The spec gives `width`,
`height` and `frameCount` as unsigned integers and the demultiplexer handle
as a pointer that is null unless one was created. -/
structure webp_loader where
  height_ : Nat
  width_ : Nat
  data_ : Bytes
  demuxer : Option Demuxer
  num_frames_ : Nat
  deriving DecidableEq, Repr

/-- The message thrown when `WebPGetFeatures` does not return OK. -/
def invalid_header_msg : String := "webp_loader: Invalid header"

/-- The message thrown when `WebPDemux` returns null. -/
def demuxer_failed_msg : String := "webp_loader: decoding demuxer failed"

/-- The message thrown by every `read_*` function, for a failed decode and
for a failed frame query alike. -/
def decoding_failed_msg : String := "webp_loader: decoding failed"

/-- `webp_loader::get_info()` (lines 78-101), returning the updated object. -/
def get_info (lib : LibWebP) (self : webp_loader) : Exec webp_loader := do
  let (status, features) ← call (.GetFeatures self.data_) (lib.WebPGetFeatures self.data_)
  if status ≠ VP8StatusCode.VP8_STATUS_OK then
    throw_error invalid_header_msg
  else
    let self := { self with width_ := features.width }
    let self := { self with height_ := features.height }
    if features.has_animation = 1 then
      let demuxer ← call (.Demux self.data_) (lib.WebPDemux self.data_)
      let self := { self with demuxer := demuxer }
      match self.demuxer with
      | none => throw_error demuxer_failed_msg
      | some dmux =>
        let n ← call (.DemuxGetI dmux .WEBP_FF_FRAME_COUNT)
          (lib.WebPDemuxGetI dmux .WEBP_FF_FRAME_COUNT)
        let self := { self with num_frames_ := n }
        let _bc ← call (.DemuxGetI dmux .WEBP_FF_BACKGROUND_COLOR)
          (lib.WebPDemuxGetI dmux .WEBP_FF_BACKGROUND_COLOR)
        pure self
    else
      pure { self with num_frames_ := 1 }

/-- The constructors (lines 34-67) once the bytes are owned: `height_` and
`width_` start at 0, the bytes are stored in `data_`, then `get_info()`
runs. Modelled from the spec: the handle member starts null ("no
DemuxHandle is created" on the still-image path); its initialiser and that
of `num_frames_` are in `webp_loader.h`, which is not among the sources. -/
def construct (lib : LibWebP) (imgbuffer : Bytes) : Exec webp_loader :=
  get_info lib
    { height_ := 0, width_ := 0, data_ := imgbuffer, demuxer := none, num_frames_ := 0 }

/-- `webp_loader::~webp_loader()` (lines 71-75). -/
def destroy (self : webp_loader) : Exec Unit :=
  match self.demuxer with
  | some dmux => call (.DemuxDelete dmux) ()
  | none => pure ()

/-- The common shape of the single-frame branch of every `read_*`: one call
of the layout's decoder on the whole of `data_`, a throw when it fails. -/
def decode_whole (lib : LibWebP) (layout : Layout) (self : webp_loader)
    (out : Int) (out_size : Nat) (out_stride : Int) : Exec Unit := do
  let ok ← call (.DecodeInto layout self.data_ out out_size out_stride)
    (lib.decoder layout self.data_ out out_size out_stride)
  if !ok then throw_error decoding_failed_msg else pure ()

/-- `webp_loader::read_argb` (lines 105-117). -/
def read_argb (lib : LibWebP) (self : webp_loader)
    (out : Int) (out_size : Nat) (out_stride : Int) : Exec Unit :=
  if self.num_frames_ = 1 then
    decode_whole lib .ARGB self out out_size out_stride
  else
    pure ()

/-- The `int` expression `iter.x_offset * 4 + iter.y_offset * out_stride`
of line 136. -/
def frame_offset (iter : WebPIterator) (out_stride : Int) : Int :=
  wrap_int (wrap_int (iter.x_offset * 4) + wrap_int (iter.y_offset * out_stride))

/-- `webp_loader::read_rgba` (lines 121-151). -/
def read_rgba (lib : LibWebP) (self : webp_loader)
    (out : Int) (out_size : Nat) (out_stride : Int) (frame_number : Int) : Exec Unit :=
  if self.num_frames_ = 1 then
    decode_whole lib .RGBA self out out_size out_stride
  else do
    call (.cerr "reading WebP animated image\n") ()
    let (found, iter) ← call (.DemuxGetFrame self.demuxer (wrap_int (frame_number + 1)))
      (lib.WebPDemuxGetFrame self.demuxer (wrap_int (frame_number + 1)))
    if found then
      let offset := frame_offset iter out_stride
      let ok ← call
        (.DecodeInto .RGBA iter.fragment (out + offset) (to_size_t (out_size - offset)) out_stride)
        (lib.WebPDecodeRGBAInto iter.fragment (out + offset) (to_size_t (out_size - offset))
          out_stride)
      if !ok then throw_error decoding_failed_msg else pure ()
    else
      throw_error decoding_failed_msg
    call (.DemuxReleaseIterator iter) ()

/-- `webp_loader::read_bgra` (lines 155-167). -/
def read_bgra (lib : LibWebP) (self : webp_loader)
    (out : Int) (out_size : Nat) (out_stride : Int) : Exec Unit :=
  if self.num_frames_ = 1 then
    decode_whole lib .BGRA self out out_size out_stride
  else
    pure ()

/-- `webp_loader::read_rgb` (lines 171-183). -/
def read_rgb (lib : LibWebP) (self : webp_loader)
    (out : Int) (out_size : Nat) (out_stride : Int) : Exec Unit :=
  if self.num_frames_ = 1 then
    decode_whole lib .RGB self out out_size out_stride
  else
    pure ()

/-- `webp_loader::read_bgr` (lines 187-199). -/
def read_bgr (lib : LibWebP) (self : webp_loader)
    (out : Int) (out_size : Nat) (out_stride : Int) : Exec Unit :=
  if self.num_frames_ = 1 then
    decode_whole lib .BGR self out out_size out_stride
  else
    pure ()

/-- The read function of each layout; `read_rgba` alone takes a frame
number. -/
def read (lib : LibWebP) (layout : Layout) (self : webp_loader)
    (out : Int) (out_size : Nat) (out_stride : Int) (frame_number : Int) : Exec Unit :=
  match layout with
  | .ARGB => read_argb lib self out out_size out_stride
  | .RGBA => read_rgba lib self out out_size out_stride frame_number
  | .BGRA => read_bgra lib self out out_size out_stride
  | .RGB => read_rgb lib self out out_size out_stride
  | .BGR => read_bgr lib self out out_size out_stride

/-- The returned value of an execution, if it returned. -/
def Exec.value? {α : Type} (m : Exec α) : Option α :=
  match m.result with
  | .ok a => some a
  | .error _ => none

/-! ## A concrete library, for evaluating the loader -/

/-- A stand-in for libwebp with fixed answers. A stream shorter than five
bytes has no readable header; any other stream is a 4x2 image whose
animation flag is `has_animation`. The demultiplexer lives at address 4096
and reports `frame_count` frames; as in libwebp, frame 0 stands for the last
frame and frames are numbered from 1. Every frame sits at
`(x_offset, y_offset)`; every decoder answers `decode_ok`. -/
def sample_lib (has_animation : Int) (frame_count : Nat) (x_offset y_offset : Int)
    (decode_ok : Bool) : LibWebP where
  WebPGetFeatures data :=
    if data.length < 5 then (.VP8_STATUS_NOT_ENOUGH_DATA, ⟨0, 0, 0, 0⟩)
    else (.VP8_STATUS_OK, ⟨4, 2, 1, has_animation⟩)
  WebPDemux _ := some 4096
  WebPDemuxGetI _ feature :=
    match feature with
    | .WEBP_FF_FRAME_COUNT => frame_count
    | _ => 0
  WebPDemuxGetFrame dmux n :=
    if dmux = some 4096 ∧ 0 ≤ n ∧ n ≤ frame_count ∧ 0 < frame_count then
      (true, ⟨x_offset, y_offset, [47, 0, 1]⟩)
    else (false, ⟨0, 0, []⟩)
  WebPDecodeARGBInto _ _ _ _ := decode_ok
  WebPDecodeRGBAInto _ _ _ _ := decode_ok
  WebPDecodeBGRAInto _ _ _ _ := decode_ok
  WebPDecodeRGBInto _ _ _ _ := decode_ok
  WebPDecodeBGRInto _ _ _ _ := decode_ok

/-- An encoded stream long enough for `sample_lib` to read a header. -/
def sample_bytes : Bytes := [82, 73, 70, 70, 26, 0]

/-- A stream truncated to four bytes. -/
def truncated_bytes : Bytes := [82, 73, 70, 70]

/-- The loader built over `sample_bytes` for a still image. -/
def still_loader : webp_loader :=
  { height_ := 2, width_ := 4, data_ := sample_bytes, demuxer := none, num_frames_ := 1 }

/-- The loader built over `sample_bytes` for an animation of `n` frames. -/
def animated_loader (n : Nat) : webp_loader :=
  { height_ := 2, width_ := 4, data_ := sample_bytes, demuxer := some 4096, num_frames_ := n }

/-- The stand-in library of `sample_lib`, except that `WebPDemux` fails: it
returns null for every stream. -/
def sample_lib_no_demux (has_animation : Int) : LibWebP :=
  { sample_lib has_animation 0 0 0 true with WebPDemux := fun _ => none }

/-! ## Construction -/

/-- The sample loaders are the ones the constructor builds. -/
theorem construct_sample_still (fc : Nat) (x y : Int) (ok : Bool) :
    (construct (sample_lib 0 fc x y ok) sample_bytes).value? = some still_loader := by
  rfl

/-- The animated sample loader is the one the constructor builds. -/
theorem construct_sample_animated (fc : Nat) (x y : Int) (ok : Bool) :
    (construct (sample_lib 1 fc x y ok) sample_bytes).value? = some (animated_loader fc) := by
  rfl

/-- Construction when the probe does not return OK: one call, the probe, and
the invalid-header exception. -/
theorem construct_probe_failed (lib : LibWebP) (b : Bytes)
    (h : (lib.WebPGetFeatures b).1 ≠ .VP8_STATUS_OK) :
    construct lib b = ⟨[.GetFeatures b], .error ⟨invalid_header_msg⟩⟩ := by
  rcases hf : lib.WebPGetFeatures b with ⟨status, f⟩
  rw [hf] at h
  simp only at h
  simp [construct, get_info, bind, Exec.bind, call, throw_error, hf, h]

/-- Construction of a still image: one call, the probe; the frame count is 1
and the handle stays null. -/
theorem construct_still (lib : LibWebP) (b : Bytes)
    (h : (lib.WebPGetFeatures b).1 = .VP8_STATUS_OK)
    (ha : (lib.WebPGetFeatures b).2.has_animation ≠ 1) :
    construct lib b = ⟨[.GetFeatures b], .ok
      { height_ := (lib.WebPGetFeatures b).2.height, width_ := (lib.WebPGetFeatures b).2.width,
        data_ := b, demuxer := none, num_frames_ := 1 }⟩ := by
  rcases hf : lib.WebPGetFeatures b with ⟨status, f⟩
  rw [hf] at h ha
  simp only at h ha
  simp [construct, get_info, bind, Exec.bind, call, pure, hf, h, ha]

/-- Construction of an animation whose demultiplexer cannot be opened. -/
theorem construct_demux_failed (lib : LibWebP) (b : Bytes)
    (h : (lib.WebPGetFeatures b).1 = .VP8_STATUS_OK)
    (ha : (lib.WebPGetFeatures b).2.has_animation = 1)
    (hd : lib.WebPDemux b = none) :
    construct lib b = ⟨[.GetFeatures b, .Demux b], .error ⟨demuxer_failed_msg⟩⟩ := by
  rcases hf : lib.WebPGetFeatures b with ⟨status, f⟩
  rw [hf] at h ha
  simp only at h ha
  simp [construct, get_info, bind, Exec.bind, call, throw_error, hf, h, ha, hd]

/-- Construction of an animation: the probe, the demultiplexer, and its two
feature queries; the frame count is the one the demultiplexer reports. -/
theorem construct_animated (lib : LibWebP) (b : Bytes) (dmux : Demuxer)
    (h : (lib.WebPGetFeatures b).1 = .VP8_STATUS_OK)
    (ha : (lib.WebPGetFeatures b).2.has_animation = 1)
    (hd : lib.WebPDemux b = some dmux) :
    construct lib b = ⟨[.GetFeatures b, .Demux b, .DemuxGetI dmux .WEBP_FF_FRAME_COUNT,
        .DemuxGetI dmux .WEBP_FF_BACKGROUND_COLOR], .ok
      { height_ := (lib.WebPGetFeatures b).2.height, width_ := (lib.WebPGetFeatures b).2.width,
        data_ := b, demuxer := some dmux,
        num_frames_ := lib.WebPDemuxGetI dmux .WEBP_FF_FRAME_COUNT }⟩ := by
  rcases hf : lib.WebPGetFeatures b with ⟨status, f⟩
  rw [hf] at h ha
  simp only at h ha
  simp [construct, get_info, bind, Exec.bind, call, pure, hf, h, ha, hd]

/-- The three messages are pairwise different. -/
theorem messages_distinct :
    invalid_header_msg ≠ demuxer_failed_msg ∧ invalid_header_msg ≠ decoding_failed_msg ∧
      demuxer_failed_msg ≠ decoding_failed_msg := by
  decide

/-- C1: construction fails with the invalid-header exception exactly when the
feature probe over the owned bytes does not return `VP8_STATUS_OK`; on that
path the probe is the only call made, so no demultiplexer is opened and no
decoder is called. -/
theorem construct_invalid_header_iff (lib : LibWebP) (b : Bytes) :
    ((construct lib b).result = .error ⟨invalid_header_msg⟩ ↔
        (lib.WebPGetFeatures b).1 ≠ .VP8_STATUS_OK) ∧
      ((lib.WebPGetFeatures b).1 ≠ .VP8_STATUS_OK →
        (construct lib b).trace = [.GetFeatures b] ∧
          ∀ c ∈ (construct lib b).trace, c.isDemux = false ∧ c.isDecode = false) := by
  by_cases h : (lib.WebPGetFeatures b).1 = .VP8_STATUS_OK
  · refine ⟨⟨fun hr => ?_, fun hn => absurd h hn⟩, fun hn => absurd h hn⟩
    by_cases ha : (lib.WebPGetFeatures b).2.has_animation = 1
    · cases hd : lib.WebPDemux b with
      | none =>
        rw [construct_demux_failed lib b h ha hd] at hr
        have hm : demuxer_failed_msg = invalid_header_msg := by
          simpa using congrArg (fun r => match r with
            | Except.error e => e.info
            | Except.ok _ => "") hr
        exact absurd hm.symm messages_distinct.1
      | some dmux =>
        rw [construct_animated lib b dmux h ha hd] at hr
        cases hr
    · rw [construct_still lib b h ha] at hr
      cases hr
  · refine ⟨⟨fun _ => h, fun _ => ?_⟩, fun _ => ?_⟩
    · rw [construct_probe_failed lib b h]
    · rw [construct_probe_failed lib b h]
      simp [Call.isDemux, Call.isDecode]

/-- C1, at a stream truncated to four bytes: the constructor throws the
invalid-header exception after the probe alone. -/
theorem construct_invalid_header_iff_witness :
    (construct (sample_lib 0 1 0 0 true) truncated_bytes).result
        = .error ⟨invalid_header_msg⟩ ∧
      (construct (sample_lib 0 1 0 0 true) truncated_bytes).trace
        = [.GetFeatures truncated_bytes] :=
  ⟨(construct_invalid_header_iff (sample_lib 0 1 0 0 true) truncated_bytes).1.2 (by decide),
    ((construct_invalid_header_iff (sample_lib 0 1 0 0 true) truncated_bytes).2
      (by decide)).1⟩

/-- C2: when construction succeeds, `width_` and `height_` are the probed
width and height; `num_frames_` is 1 when the probe does not report
animation, and otherwise it is the frame count reported by the demultiplexer
opened over the same bytes. -/
theorem construct_metadata (lib : LibWebP) (b : Bytes) (L : webp_loader)
    (h : (construct lib b).result = .ok L) :
    L.width_ = (lib.WebPGetFeatures b).2.width ∧
      L.height_ = (lib.WebPGetFeatures b).2.height ∧
      ((lib.WebPGetFeatures b).2.has_animation ≠ 1 → L.num_frames_ = 1) ∧
      ((lib.WebPGetFeatures b).2.has_animation = 1 →
        ∃ dmux, lib.WebPDemux b = some dmux ∧
          L.num_frames_ = lib.WebPDemuxGetI dmux .WEBP_FF_FRAME_COUNT) := by
  by_cases hs : (lib.WebPGetFeatures b).1 = .VP8_STATUS_OK
  · by_cases ha : (lib.WebPGetFeatures b).2.has_animation = 1
    · cases hd : lib.WebPDemux b with
      | none =>
        rw [construct_demux_failed lib b hs ha hd] at h
        cases h
      | some dmux =>
        rw [construct_animated lib b dmux hs ha hd] at h
        cases h
        exact ⟨rfl, rfl, fun hn => absurd ha hn, fun _ => ⟨dmux, rfl, rfl⟩⟩
    · rw [construct_still lib b hs ha] at h
      cases h
      exact ⟨rfl, rfl, fun _ => rfl, fun hn => absurd hn ha⟩
  · rw [construct_probe_failed lib b hs] at h
    cases h

/-- C2, at a three-frame animation: construction succeeds and the metadata
are those of the probe and of the demultiplexer. -/
theorem construct_metadata_witness :
    (construct (sample_lib 1 3 0 0 true) sample_bytes).result = .ok (animated_loader 3) ∧
      (animated_loader 3).width_ = 4 ∧ (animated_loader 3).height_ = 2 ∧
      (animated_loader 3).num_frames_ = 3 :=
  have h := construct_metadata (sample_lib 1 3 0 0 true) sample_bytes (animated_loader 3) rfl
  ⟨rfl, h.1, h.2.1, by
    obtain ⟨dmux, _, hn⟩ := h.2.2.2 rfl
    exact hn⟩

/-- C3, as stated, fails: an animation-flagged stream whose demultiplexer
reports one frame is constructed with a non-null handle and a frame count
of 1. -/
theorem construct_handle_counterexample :
    (construct (sample_lib 1 1 0 0 true) sample_bytes).result = .ok (animated_loader 1) ∧
      ¬ ((animated_loader 1).demuxer ≠ none ↔ 1 < (animated_loader 1).num_frames_) :=
  ⟨rfl, by decide⟩

/-- C3, amended: after a successful construction the handle is non-null
exactly when the probe reported animation (`has_animation == 1`); hence it
is non-null whenever the frame count is not 1, in particular whenever it is
greater than 1. -/
theorem construct_handle_iff_animated (lib : LibWebP) (b : Bytes) (L : webp_loader)
    (h : (construct lib b).result = .ok L) :
    (L.demuxer ≠ none ↔ (lib.WebPGetFeatures b).2.has_animation = 1) ∧
      (L.num_frames_ ≠ 1 → L.demuxer ≠ none) ∧ (1 < L.num_frames_ → L.demuxer ≠ none) := by
  by_cases hs : (lib.WebPGetFeatures b).1 = .VP8_STATUS_OK
  · by_cases ha : (lib.WebPGetFeatures b).2.has_animation = 1
    · cases hd : lib.WebPDemux b with
      | none =>
        rw [construct_demux_failed lib b hs ha hd] at h
        cases h
      | some dmux =>
        rw [construct_animated lib b dmux hs ha hd] at h
        cases h
        simp [ha]
    · rw [construct_still lib b hs ha] at h
      cases h
      simp [ha]
  · rw [construct_probe_failed lib b hs] at h
    cases h

/-- C3 amended, at a one-frame animation: the handle is non-null. -/
theorem construct_handle_iff_animated_witness :
    (construct (sample_lib 1 1 0 0 true) sample_bytes).result = .ok (animated_loader 1) ∧
      (animated_loader 1).demuxer ≠ none :=
  ⟨rfl, (construct_handle_iff_animated (sample_lib 1 1 0 0 true) sample_bytes
    (animated_loader 1) rfl).1.2 rfl⟩

/-- C4, as stated, fails: when the demultiplexer of an animation-flagged
stream reports zero frames, construction succeeds with a frame count of 0. -/
theorem construct_frame_count_counterexample :
    (construct (sample_lib 1 0 0 0 true) sample_bytes).result = .ok (animated_loader 0) ∧
      ¬ (1 ≤ (animated_loader 0).num_frames_) :=
  ⟨rfl, by decide⟩

/-- C4, amended: after a successful construction the frame count is at
least 1 exactly when the probe reported no animation or the demultiplexer
opened over the bytes reports at least one frame. -/
theorem construct_frame_count_pos_iff (lib : LibWebP) (b : Bytes) (L : webp_loader)
    (h : (construct lib b).result = .ok L) :
    1 ≤ L.num_frames_ ↔
      ((lib.WebPGetFeatures b).2.has_animation ≠ 1 ∨
        ∃ dmux, lib.WebPDemux b = some dmux ∧
          1 ≤ lib.WebPDemuxGetI dmux .WEBP_FF_FRAME_COUNT) := by
  by_cases hs : (lib.WebPGetFeatures b).1 = .VP8_STATUS_OK
  · by_cases ha : (lib.WebPGetFeatures b).2.has_animation = 1
    · cases hd : lib.WebPDemux b with
      | none =>
        rw [construct_demux_failed lib b hs ha hd] at h
        cases h
      | some dmux =>
        rw [construct_animated lib b dmux hs ha hd] at h
        cases h
        simp [ha]
    · rw [construct_still lib b hs ha] at h
      cases h
      simp [ha]
  · rw [construct_probe_failed lib b hs] at h
    cases h

/-- C4 amended, at a three-frame animation: the frame count is at least 1. -/
theorem construct_frame_count_pos_iff_witness :
    (construct (sample_lib 1 3 0 0 true) sample_bytes).result = .ok (animated_loader 3) ∧
      1 ≤ (animated_loader 3).num_frames_ :=
  ⟨rfl, (construct_frame_count_pos_iff (sample_lib 1 3 0 0 true) sample_bytes
    (animated_loader 3) rfl).2 (Or.inr ⟨4096, rfl, by decide⟩)⟩

/-! ## Reading -/

/-- The single-frame branch: one decoder call on the whole of `data_`. -/
theorem decode_whole_eq (lib : LibWebP) (layout : Layout) (self : webp_loader)
    (out : Int) (out_size : Nat) (out_stride : Int) :
    decode_whole lib layout self out out_size out_stride =
      ⟨[.DecodeInto layout self.data_ out out_size out_stride],
        if lib.decoder layout self.data_ out out_size out_stride = true then .ok ()
        else .error ⟨decoding_failed_msg⟩⟩ := by
  cases hb : lib.decoder layout self.data_ out out_size out_stride <;>
    simp [decode_whole, bind, Exec.bind, call, throw_error, pure, hb]

/-- Every `read_*` of a loader with one frame is the single-frame branch. -/
theorem read_of_one_frame (lib : LibWebP) (layout : Layout) (self : webp_loader)
    (out : Int) (out_size : Nat) (out_stride : Int) (frame_number : Int)
    (h : self.num_frames_ = 1) :
    read lib layout self out out_size out_stride frame_number =
      decode_whole lib layout self out out_size out_stride := by
  cases layout <;> simp [read, read_argb, read_rgba, read_bgra, read_rgb, read_bgr, h]

/-- The multi-frame branch of `read_rgba` when the frame query fails. -/
theorem read_rgba_frame_missing (lib : LibWebP) (self : webp_loader)
    (out : Int) (out_size : Nat) (out_stride : Int) (frame_number : Int)
    (h : self.num_frames_ ≠ 1)
    (hq : (lib.WebPDemuxGetFrame self.demuxer (wrap_int (frame_number + 1))).1 = false) :
    read_rgba lib self out out_size out_stride frame_number =
      ⟨[.cerr "reading WebP animated image\n",
          .DemuxGetFrame self.demuxer (wrap_int (frame_number + 1))],
        .error ⟨decoding_failed_msg⟩⟩ := by
  rcases hf : lib.WebPDemuxGetFrame self.demuxer (wrap_int (frame_number + 1)) with ⟨found, iter⟩
  rw [hf] at hq
  simp only at hq
  simp [read_rgba, bind, Exec.bind, call, throw_error, h, hf, hq]

/-- The multi-frame branch of `read_rgba` when the frame query succeeds. -/
theorem read_rgba_frame_found (lib : LibWebP) (self : webp_loader)
    (out : Int) (out_size : Nat) (out_stride : Int) (frame_number : Int)
    (h : self.num_frames_ ≠ 1) (iter : WebPIterator)
    (hq : lib.WebPDemuxGetFrame self.demuxer (wrap_int (frame_number + 1)) = (true, iter)) :
    read_rgba lib self out out_size out_stride frame_number =
      if lib.WebPDecodeRGBAInto iter.fragment (out + frame_offset iter out_stride)
          (to_size_t (out_size - frame_offset iter out_stride)) out_stride = true then
        ⟨[.cerr "reading WebP animated image\n",
            .DemuxGetFrame self.demuxer (wrap_int (frame_number + 1)),
            .DecodeInto .RGBA iter.fragment (out + frame_offset iter out_stride)
              (to_size_t (out_size - frame_offset iter out_stride)) out_stride,
            .DemuxReleaseIterator iter], .ok ()⟩
      else
        ⟨[.cerr "reading WebP animated image\n",
            .DemuxGetFrame self.demuxer (wrap_int (frame_number + 1)),
            .DecodeInto .RGBA iter.fragment (out + frame_offset iter out_stride)
              (to_size_t (out_size - frame_offset iter out_stride)) out_stride],
          .error ⟨decoding_failed_msg⟩⟩ := by
  cases hb : lib.WebPDecodeRGBAInto iter.fragment (out + frame_offset iter out_stride)
      (to_size_t (out_size - frame_offset iter out_stride)) out_stride <;>
    simp [read_rgba, bind, Exec.bind, call, throw_error, pure, h, hq, hb]

/-- An `int` value is unchanged by `wrap_int`. -/
theorem wrap_int_of_range (n : Int) (hlo : -2 ^ 31 ≤ n) (hhi : n < 2 ^ 31) :
    wrap_int n = n := by
  unfold wrap_int
  omega

/-- A value between 0 and `2 ^ 64` is unchanged by `to_size_t`. -/
theorem to_size_t_of_range (n : Int) (hlo : 0 ≤ n) (hhi : n < 2 ^ 64) :
    (to_size_t n : Int) = n := by
  unfold to_size_t
  omega

/-- C5: with a frame count of 1, each `read_*` calls its layout's decoder
exactly once, on the whole of `data_`, with `out`, `out_size` and
`out_stride` unchanged; it returns normally exactly when that decoder
succeeds and throws the decode exception exactly when it fails. -/
theorem read_single_frame (lib : LibWebP) (layout : Layout) (self : webp_loader)
    (out : Int) (out_size : Nat) (out_stride : Int) (frame_number : Int)
    (h : self.num_frames_ = 1) :
    (read lib layout self out out_size out_stride frame_number).trace =
        [.DecodeInto layout self.data_ out out_size out_stride] ∧
      ((read lib layout self out out_size out_stride frame_number).result = .ok () ↔
        lib.decoder layout self.data_ out out_size out_stride = true) ∧
      ((read lib layout self out out_size out_stride frame_number).result =
          .error ⟨decoding_failed_msg⟩ ↔
        lib.decoder layout self.data_ out out_size out_stride = false) := by
  rw [read_of_one_frame lib layout self out out_size out_stride frame_number h,
    decode_whole_eq]
  cases lib.decoder layout self.data_ out out_size out_stride <;> simp

/-- C5, at a still image read as BGR into a 24-byte buffer. -/
theorem read_single_frame_witness :
    (read (sample_lib 0 1 0 0 true) .BGR still_loader 1000 24 12 0).trace =
        [.DecodeInto .BGR sample_bytes 1000 24 12] ∧
      (read (sample_lib 0 1 0 0 true) .BGR still_loader 1000 24 12 0).result = .ok () :=
  have h := read_single_frame (sample_lib 0 1 0 0 true) .BGR still_loader 1000 24 12 0 rfl
  ⟨h.1, h.2.1.2 rfl⟩

/-- C6: in the multi-frame branch (`num_frames_` not 1, so for every frame
count above 1) `read_rgba` queries the demultiplexer at `frame_number + 1`
and, when the frame is found, calls the RGBA decoder once, on the fragment of
that frame, with destination `out + offset`, capacity `out_size - offset`
and the caller's stride, where `offset = x_offset * 4 + y_offset *
out_stride`; the call returns normally exactly when that decode succeeds.
The expressions are those of the machine (`int` for the index and the
offset, `size_t` for the capacity) and equal the exact values as long as
these are in range. -/
theorem read_rgba_multi_frame (lib : LibWebP) (self : webp_loader)
    (out : Int) (out_size : Nat) (out_stride : Int) (frame_number : Int)
    (iter : WebPIterator) (h : self.num_frames_ ≠ 1)
    (hq : lib.WebPDemuxGetFrame self.demuxer (wrap_int (frame_number + 1)) = (true, iter)) :
    (read_rgba lib self out out_size out_stride frame_number).trace.filter
          (fun c => !c.isRelease) =
        [.cerr "reading WebP animated image\n",
          .DemuxGetFrame self.demuxer (wrap_int (frame_number + 1)),
          .DecodeInto .RGBA iter.fragment (out + frame_offset iter out_stride)
            (to_size_t (out_size - frame_offset iter out_stride)) out_stride] ∧
      ((read_rgba lib self out out_size out_stride frame_number).result = .ok () ↔
        lib.WebPDecodeRGBAInto iter.fragment (out + frame_offset iter out_stride)
          (to_size_t (out_size - frame_offset iter out_stride)) out_stride = true) ∧
      (-2 ^ 31 ≤ frame_number + 1 → frame_number + 1 < 2 ^ 31 →
        wrap_int (frame_number + 1) = frame_number + 1) ∧
      (-2 ^ 31 ≤ iter.x_offset * 4 → iter.x_offset * 4 < 2 ^ 31 →
        -2 ^ 31 ≤ iter.y_offset * out_stride → iter.y_offset * out_stride < 2 ^ 31 →
        -2 ^ 31 ≤ iter.x_offset * 4 + iter.y_offset * out_stride →
        iter.x_offset * 4 + iter.y_offset * out_stride < 2 ^ 31 →
        frame_offset iter out_stride = iter.x_offset * 4 + iter.y_offset * out_stride) ∧
      (out_size < 2 ^ 64 → 0 ≤ frame_offset iter out_stride →
        frame_offset iter out_stride ≤ out_size →
        (to_size_t (out_size - frame_offset iter out_stride) : Int) =
          out_size - frame_offset iter out_stride) := by
  refine ⟨?_, ?_, wrap_int_of_range _, ?_, ?_⟩
  · rw [read_rgba_frame_found lib self out out_size out_stride frame_number h iter hq]
    split <;> simp [Call.isRelease]
  · rw [read_rgba_frame_found lib self out out_size out_stride frame_number h iter hq]
    split <;> simp_all
  · intro h1 h2 h3 h4 h5 h6
    unfold frame_offset
    rw [wrap_int_of_range _ h1 h2, wrap_int_of_range _ h3 h4, wrap_int_of_range _ h5 h6]
  · intro h1 h2 h3
    exact to_size_t_of_range _ (by omega) (by omega)

/-- C6, at frame 0 of a two-frame animation placed at (1, 1), read into a
64-byte buffer of stride 16: the demultiplexer is asked for frame 1 and the
fragment is decoded at `out + 20` with capacity 44. -/
theorem read_rgba_multi_frame_witness :
    (read_rgba (sample_lib 1 2 1 1 true) (animated_loader 2) 1000 64 16 0).trace.filter
          (fun c => !c.isRelease) =
        [.cerr "reading WebP animated image\n", .DemuxGetFrame (some 4096) 1,
          .DecodeInto .RGBA [47, 0, 1] 1020 44 16] ∧
      (read_rgba (sample_lib 1 2 1 1 true) (animated_loader 2) 1000 64 16 0).result = .ok () :=
  have h := read_rgba_multi_frame (sample_lib 1 2 1 1 true) (animated_loader 2) 1000 64 16 0
    ⟨1, 1, [47, 0, 1]⟩ (by decide) rfl
  ⟨h.1, h.2.1.2 rfl⟩

/-- C7, the code at an offset past the buffer: for a 16-byte buffer of stride
16 and a frame at (0, 2) the offset is 32; `read_rgba` still calls the
decoder, with destination `out + 32` and the capacity `16 - 32` wrapped to
`2 ^ 64 - 16`, and returns normally when the decoder accepts. -/
theorem read_rgba_offset_past_buffer :
    frame_offset ⟨0, 2, [47, 0, 1]⟩ 16 = 32 ∧
      (read_rgba (sample_lib 1 2 0 2 true) (animated_loader 2) 1000 16 16 0).trace =
        [.cerr "reading WebP animated image\n", .DemuxGetFrame (some 4096) 1,
          .DecodeInto .RGBA [47, 0, 1] 1032 18446744073709551600 16,
          .DemuxReleaseIterator ⟨0, 2, [47, 0, 1]⟩] ∧
      (read_rgba (sample_lib 1 2 0 2 true) (animated_loader 2) 1000 16 16 0).result = .ok () :=
  ⟨by decide, by decide, rfl⟩

/-- C8, as stated, fails. With one frame, `read_rgba` at frame number 5
calls the decoder and returns normally; with two frames, the exception for
the missing frame 7 is the very exception of a failed decode of frame 0. -/
theorem read_rgba_frame_range_counterexample :
    (read_rgba (sample_lib 0 1 0 0 true) still_loader 1000 64 16 5).result = .ok () ∧
      (read_rgba (sample_lib 0 1 0 0 true) still_loader 1000 64 16 5).trace =
        [.DecodeInto .RGBA sample_bytes 1000 64 16] ∧
      (sample_lib 1 2 0 0 true).WebPDemuxGetFrame (some 4096) 8 = (false, ⟨0, 0, []⟩) ∧
      (sample_lib 1 2 0 0 false).WebPDemuxGetFrame (some 4096) 1 = (true, ⟨0, 0, [47, 0, 1]⟩) ∧
      (read_rgba (sample_lib 1 2 0 0 true) (animated_loader 2) 1000 64 16 7).result =
        (read_rgba (sample_lib 1 2 0 0 false) (animated_loader 2) 1000 64 16 0).result :=
  ⟨rfl, by decide, by decide, by decide, rfl⟩

/-- C8, amended: in the multi-frame branch (`num_frames_` not 1), when the
demultiplexer does not find frame `frame_number + 1`, `read_rgba` throws
`image_load_error` with the message of a failed decode, after the line on
`std::cerr` and the query alone: no decoder is called and no iterator is
released. -/
theorem read_rgba_frame_not_found (lib : LibWebP) (self : webp_loader)
    (out : Int) (out_size : Nat) (out_stride : Int) (frame_number : Int)
    (h : self.num_frames_ ≠ 1)
    (hq : (lib.WebPDemuxGetFrame self.demuxer (wrap_int (frame_number + 1))).1 = false) :
    (read_rgba lib self out out_size out_stride frame_number).result =
        .error ⟨decoding_failed_msg⟩ ∧
      (read_rgba lib self out out_size out_stride frame_number).trace =
        [.cerr "reading WebP animated image\n",
          .DemuxGetFrame self.demuxer (wrap_int (frame_number + 1))] ∧
      ∀ c ∈ (read_rgba lib self out out_size out_stride frame_number).trace,
        c.isDecode = false ∧ c.isRelease = false := by
  rw [read_rgba_frame_missing lib self out out_size out_stride frame_number h hq]
  simp [Call.isDecode, Call.isRelease]

/-- C8 amended, at frame number 7 of a two-frame animation. -/
theorem read_rgba_frame_not_found_witness :
    (read_rgba (sample_lib 1 2 0 0 true) (animated_loader 2) 1000 64 16 7).result =
        .error ⟨decoding_failed_msg⟩ ∧
      (read_rgba (sample_lib 1 2 0 0 true) (animated_loader 2) 1000 64 16 7).trace =
        [.cerr "reading WebP animated image\n", .DemuxGetFrame (some 4096) 8] :=
  have h := read_rgba_frame_not_found (sample_lib 1 2 0 0 true) (animated_loader 2) 1000 64 16 7
    (by decide) (by decide)
  ⟨h.1, h.2.1⟩

/-- C9, the code when the sub-decode fails: frame 0 of a two-frame animation
is found, the decoder fails, and `read_rgba` throws without any call of
`WebPDemuxReleaseIterator`; when the same decode succeeds the iterator is
released once. -/
theorem read_rgba_iterator_not_released :
    (read_rgba (sample_lib 1 2 0 0 false) (animated_loader 2) 1000 64 16 0).result =
        .error ⟨decoding_failed_msg⟩ ∧
      (read_rgba (sample_lib 1 2 0 0 false) (animated_loader 2) 1000 64 16 0).trace =
        [.cerr "reading WebP animated image\n", .DemuxGetFrame (some 4096) 1,
          .DecodeInto .RGBA [47, 0, 1] 1000 64 16] ∧
      ((read_rgba (sample_lib 1 2 0 0 false) (animated_loader 2) 1000 64 16 0).trace.filter
          Call.isRelease).length = 0 ∧
      ((read_rgba (sample_lib 1 2 0 0 true) (animated_loader 2) 1000 64 16 0).trace.filter
          Call.isRelease).length = 1 :=
  ⟨rfl, by decide, by decide, by decide⟩

/-- C10, as stated, fails: `read_rgb`, `read_bgr` and `read_bgra` of a
two-frame animation return normally and call nothing. -/
theorem read_animated_other_layout_counterexample :
    (read_rgb (sample_lib 1 2 0 0 true) (animated_loader 2) 1000 64 16).result = .ok () ∧
      (read_rgb (sample_lib 1 2 0 0 true) (animated_loader 2) 1000 64 16).trace = [] ∧
      (read_bgr (sample_lib 1 2 0 0 true) (animated_loader 2) 1000 64 16).result = .ok () ∧
      (read_bgr (sample_lib 1 2 0 0 true) (animated_loader 2) 1000 64 16).trace = [] ∧
      (read_bgra (sample_lib 1 2 0 0 true) (animated_loader 2) 1000 64 16).result = .ok () ∧
      (read_bgra (sample_lib 1 2 0 0 true) (animated_loader 2) 1000 64 16).trace = [] :=
  ⟨rfl, rfl, rfl, rfl, rfl, rfl⟩

/-- C10, amended: for every loader whose frame count is not 1 (so for every
animated source with more than one frame) `read_rgb`, `read_bgr` and
`read_bgra` return normally, throw nothing and make no call at all. -/
theorem read_animated_other_layout (lib : LibWebP) (self : webp_loader)
    (out : Int) (out_size : Nat) (out_stride : Int) (h : self.num_frames_ ≠ 1) :
    read_rgb lib self out out_size out_stride = ⟨[], .ok ()⟩ ∧
      read_bgr lib self out out_size out_stride = ⟨[], .ok ()⟩ ∧
      read_bgra lib self out out_size out_stride = ⟨[], .ok ()⟩ := by
  simp [read_rgb, read_bgr, read_bgra, h, pure]

/-- C10 amended, at a two-frame animation read as BGR. -/
theorem read_animated_other_layout_witness :
    read_bgr (sample_lib 1 2 0 0 false) (animated_loader 2) 1000 64 16 = ⟨[], .ok ()⟩ :=
  (read_animated_other_layout (sample_lib 1 2 0 0 false) (animated_loader 2) 1000 64 16
    (by decide)).2.1

/-! ## Demultiplexer set-up and destruction -/

/-- C11: for an animation-flagged stream (probe OK, `has_animation == 1`)
construction throws the demultiplexer exception exactly when `WebPDemux`
over the owned bytes returns null; in that case the calls made are the
probe and `WebPDemux` alone, so the frame count is never queried. -/
theorem construct_demux_error_iff (lib : LibWebP) (b : Bytes)
    (hs : (lib.WebPGetFeatures b).1 = .VP8_STATUS_OK)
    (ha : (lib.WebPGetFeatures b).2.has_animation = 1) :
    ((construct lib b).result = .error ⟨demuxer_failed_msg⟩ ↔ lib.WebPDemux b = none) ∧
      (lib.WebPDemux b = none →
        (construct lib b).trace = [.GetFeatures b, .Demux b] ∧
          ∀ c ∈ (construct lib b).trace, c.isGetI = false) := by
  cases hd : lib.WebPDemux b with
  | none =>
    rw [construct_demux_failed lib b hs ha hd]
    simp [Call.isGetI]
  | some dmux =>
    rw [construct_animated lib b dmux hs ha hd]
    simp

/-- C11, at an animation-flagged stream whose demultiplexer cannot be
opened: the constructor throws after the probe and `WebPDemux`. -/
theorem construct_demux_error_iff_witness :
    (construct (sample_lib_no_demux 1) sample_bytes).result = .error ⟨demuxer_failed_msg⟩ ∧
      (construct (sample_lib_no_demux 1) sample_bytes).trace =
        [.GetFeatures sample_bytes, .Demux sample_bytes] :=
  have h := construct_demux_error_iff (sample_lib_no_demux 1) sample_bytes rfl rfl
  ⟨h.1.2 rfl, (h.2 rfl).1⟩

/-- C12: the destructor of a constructed loader returns normally; if
construction opened a demultiplexer, the destructor makes exactly one call,
`WebPDemuxDelete` on the handle `WebPDemux` returned, and if construction
opened none, the destructor makes no call at all. -/
theorem destroy_closes_handle (lib : LibWebP) (b : Bytes) (L : webp_loader)
    (h : (construct lib b).result = .ok L) :
    (destroy L).result = .ok () ∧
      ((construct lib b).trace.any Call.isDemux = true →
        ∃ dmux, lib.WebPDemux b = some dmux ∧ L.demuxer = some dmux ∧
          (destroy L).trace = [.DemuxDelete dmux]) ∧
      ((construct lib b).trace.any Call.isDemux = false →
        L.demuxer = none ∧ (destroy L).trace = []) := by
  by_cases hs : (lib.WebPGetFeatures b).1 = .VP8_STATUS_OK
  · by_cases ha : (lib.WebPGetFeatures b).2.has_animation = 1
    · cases hd : lib.WebPDemux b with
      | none =>
        rw [construct_demux_failed lib b hs ha hd] at h
        cases h
      | some dmux =>
        rw [construct_animated lib b dmux hs ha hd] at h ⊢
        cases h
        simp [destroy, call, Call.isDemux]
    · rw [construct_still lib b hs ha] at h ⊢
      cases h
      simp [destroy, pure, Call.isDemux]
  · rw [construct_probe_failed lib b hs] at h
    cases h

/-- C12, at a two-frame animation: the destructor closes the handle at
address 4096 once. -/
theorem destroy_closes_handle_witness :
    (construct (sample_lib 1 2 0 0 true) sample_bytes).result = .ok (animated_loader 2) ∧
      (destroy (animated_loader 2)).trace = [.DemuxDelete 4096] :=
  have h := destroy_closes_handle (sample_lib 1 2 0 0 true) sample_bytes (animated_loader 2) rfl
  ⟨rfl, by
    obtain ⟨dmux, _, hd, ht⟩ := h.2.1 (by decide)
    cases hd
    exact ht⟩

/-- C13: with a frame count of 1, `read_rgba` does the same for every two
frame numbers, negative or beyond the frame count included: it makes the
one call of the RGBA decoder on the whole of `data_` with the arguments of
the caller, and it returns normally exactly when that decoder succeeds, so
the frame number never causes an exception. -/
theorem read_rgba_ignores_frame_number (lib : LibWebP) (self : webp_loader)
    (out : Int) (out_size : Nat) (out_stride : Int) (m n : Int)
    (h : self.num_frames_ = 1) :
    read_rgba lib self out out_size out_stride m =
        read_rgba lib self out out_size out_stride n ∧
      (read_rgba lib self out out_size out_stride n).trace =
        [.DecodeInto .RGBA self.data_ out out_size out_stride] ∧
      ((read_rgba lib self out out_size out_stride n).result = .ok () ↔
        lib.WebPDecodeRGBAInto self.data_ out out_size out_stride = true) := by
  have hr : ∀ k : Int, read_rgba lib self out out_size out_stride k =
      decode_whole lib .RGBA self out out_size out_stride := by
    intro k
    simp [read_rgba, h]
  rw [hr m, hr n, decode_whole_eq]
  simp only [LibWebP.decoder]
  refine ⟨trivial, trivial, ?_⟩
  by_cases hb : lib.WebPDecodeRGBAInto self.data_ out out_size out_stride = true <;>
    simp [hb]

/-- C13, at a still image: frame numbers -3 and 7 give the same outcome,
the one decoder call and a normal return. -/
theorem read_rgba_ignores_frame_number_witness :
    read_rgba (sample_lib 0 1 0 0 true) still_loader 1000 64 16 (-3) =
        read_rgba (sample_lib 0 1 0 0 true) still_loader 1000 64 16 7 ∧
      (read_rgba (sample_lib 0 1 0 0 true) still_loader 1000 64 16 7).trace =
        [.DecodeInto .RGBA sample_bytes 1000 64 16] ∧
      (read_rgba (sample_lib 0 1 0 0 true) still_loader 1000 64 16 7).result = .ok () :=
  have h := read_rgba_ignores_frame_number (sample_lib 0 1 0 0 true) still_loader 1000 64 16
    (-3) 7 rfl
  ⟨h.1, h.2.1, h.2.2.2 rfl⟩

end dlib
